import Mathlib

/-!
# Verification of the thor-os kernel network stack

Shallow embedding of the network core of the thor-os kernel
(`src/kernel/src/net/tcp_layer.cpp`, `udp_layer.cpp`, `icmp_layer.cpp`,
`src/kernel/include/conc/semaphore.hpp`, `src/kernel/include/net/socket.hpp`)
together with proofs about its behaviour.

Machine integers are modelled as `Nat` with explicit `% 2 ^ 32` (resp.
`% 2 ^ 16`) at the points where the C++ code performs a truncating
assignment or wrapping arithmetic.  Bounded FIFO queues
(`circular_buffer<T, N>`) are modelled as Lean lists with `push` at the
back and `pop` at the front; the capacity bound is irrelevant to the
properties proved here (overflow is a fatal error in the source).
Blocking waits (`condition_variable::wait_for`) are modelled by passing
the list of packets actually delivered during each timeout window as an
explicit environment; a window in which no matching packet arrives
corresponds to the timeout branch of the code.
-/

namespace ThorOS

/-! ## Checksum (icmp_layer.cpp, anonymous-namespace compute_checksum)

The C++ loop folds the carries of a 32-bit one's-complement accumulator
into the low 16 bits and then stores the bitwise complement into the
16-bit checksum field. -/

/-- Carry folding loop of compute_checksum: while a carry remains, add it
back into the low 16 bits. -/
def foldCarries (s : Nat) : Nat :=
  if s < 2 ^ 16 then s else foldCarries (s % 2 ^ 16 + s / 2 ^ 16)
termination_by s
decreasing_by
  rename_i h
  have h1 : 2 ^ 16 ≤ s := Nat.le_of_not_lt h
  have _h2 := Nat.div_add_mod s (2 ^ 16)
  have h3 : 0 < s / 2 ^ 16 := Nat.div_pos h1 (by norm_num)
  omega

/-- compute_checksum of icmp_layer.cpp over a list of 16-bit words (the
checksum field itself is zeroed before the accumulation): accumulate,
fold the carries, complement within 16 bits. -/
def icmp_compute_checksum (words : List Nat) : Nat :=
  0xFFFF - foldCarries (List.foldl (· + ·) 0 words)

/-! ## Semaphore (conc/semaphore.hpp)

`value` is the counter, `queue` the FIFO sleep queue of blocked process
identifiers (front = oldest waiter).  The spinlock serialises the
operations, so each operation is one atomic step of this model. -/

/-- State of the counting semaphore of conc/semaphore.hpp. -/
structure Semaphore where
  value : Nat
  queue : List Nat
deriving Repr, DecidableEq

/-- semaphore::lock for process pid: take a permit when the counter is
positive, otherwise append pid to the sleep queue and block.  The
returned Bool is true when the permit was taken immediately. -/
def sem_lock (s : Semaphore) (pid : Nat) : Semaphore × Bool :=
  if 0 < s.value then ({ s with value := s.value - 1 }, true)
  else ({ s with queue := s.queue ++ [pid] }, false)

/-- semaphore::unlock: with an empty queue increment the counter; with a
non-empty queue pop the front waiter and unblock it, leaving the counter
alone.  The returned option is the woken process, if any. -/
def sem_unlock (s : Semaphore) : Semaphore × Option Nat :=
  match s.queue with
  | [] => ({ s with value := s.value + 1 }, none)
  | pid :: rest => ({ s with queue := rest }, some pid)

/-- Iterate semaphore::unlock n times, collecting the woken processes in
order. -/
def sem_unlockN (s : Semaphore) : Nat → Semaphore × List Nat
  | 0 => (s, [])
  | n + 1 =>
    let r := sem_unlock s
    let rest := sem_unlockN r.1 n
    (rest.1, r.2.toList ++ rest.2)

/-- Run a list of sem_lock calls in order, returning the final state. -/
def sem_lockAll (s : Semaphore) : List Nat → Semaphore
  | [] => s
  | pid :: rest => sem_lockAll (sem_lock s pid).1 rest

/-! ## Socket prepared-packet descriptor table (net/socket.hpp) -/

/-- A prepared outgoing packet registered on a socket, keyed by its fd
field (ethernet_packet.hpp viewed through socket.hpp). -/
structure PreparedPacket where
  fd : Nat
  payload : List Nat
deriving Repr, DecidableEq

/-- socket::has_packet: linear scan of the packets vector for a packet
whose fd field equals the argument. -/
def has_packet (packets : List PreparedPacket) (fd : Nat) : Bool :=
  packets.any fun p => p.fd == fd

/-- socket::get_packet: return the first packet whose fd field matches;
when no packet matches, the source hits thor_unreachable (a fatal kernel
error, not a returned error value), modelled here as none. -/
def get_packet (packets : List PreparedPacket) (fd : Nat) : Option PreparedPacket :=
  packets.find? fun p => p.fd == fd

/-- socket::register_packet: assign next_fd, increment it, push the
packet.  Returns (new table, new next_fd, assigned fd). -/
def register_packet (packets : List PreparedPacket) (next_fd : Nat)
    (payload : List Nat) : List PreparedPacket × Nat × Nat :=
  (packets ++ [{ fd := next_fd, payload := payload }], next_fd + 1, next_fd)

/-! ## Error codes (tlib/errors.hpp, as used by the network layers) -/

/-- The error codes returned by the socket-facing transport operations.
lowerLayer stands for an error propagated from ip/ethernet finalize or
prepare (out of memory, no route, interface down). -/
inductive SockError
  | notConnected
  | bufferSmall
  | socketTimeout
  | tcpError
  | lowerLayer
deriving Repr, DecidableEq

/-! ## UDP (udp_layer.cpp) -/

namespace udp

/-- sizeof(network::udp::header): 16-bit source port, target port,
length, checksum. -/
def header_size : Nat := 8

/-- udp_layer.cpp prepare_packet writes length = sizeof(header) +
payload_size into the UDP header length field. -/
def prepare_packet_length (payload_size : Nat) : Nat :=
  header_size + payload_size

/-- A datagram connection record (udp_layer.cpp udp_connection). -/
structure udp_connection where
  localPort : Nat
  serverPort : Nat
  serverAddress : Nat
  connected : Bool
  socketId : Option Nat
deriving Repr, DecidableEq

/-- network::udp::client_bind on a layer whose ephemeral counter is
counter: create a connection, assign local_port = ++counter
(pre-increment), link socket and connection, mark connected, and return
the local port as the success value.  Result: (new connection table, new
counter, returned port). -/
def client_bind (conns : List udp_connection) (counter : Nat)
    (sockId serverPort serverAddr : Nat) :
    List udp_connection × Nat × Nat :=
  (conns ++ [{ localPort := counter + 1, serverPort := serverPort,
               serverAddress := serverAddr, connected := true,
               socketId := some sockId }],
   counter + 1, counter + 1)

/-- A packet sitting in a socket listen queue, as seen by
network::udp::receive: the cursor (packet.index) was advanced past the
UDP header by the decode path, so payloadBytes are exactly the datagram
bytes after the transport header; lengthField is the 16-bit length field
of that header (sizeof(header) + payload size as written by the
sender). -/
structure queued_packet where
  lengthField : Nat
  payloadBytes : List Nat
deriving Repr, DecidableEq

/-- network::udp::receive acting on one dequeued packet with a caller
buffer of size n.  The source reads payload_len =
switch_endian_16(udp_header->length) — the full length field — fails
with BUFFER_SMALL when payload_len > n, and otherwise copies payload_len
bytes starting at the cursor and returns payload_len. -/
def receive (pkt : queued_packet) (n : Nat) : Except SockError (Nat × List Nat) :=
  let payload_len := pkt.lengthField
  if n < payload_len then .error .bufferSmall
  else .ok (payload_len, pkt.payloadBytes.take payload_len)

end udp

/-! ## Ephemeral port counter (udp_layer.cpp / tcp_layer.cpp)

Each transport has its own `std::atomic<size_t> local_port` in an
anonymous namespace; `init_layer` sets it to 1023 and every bind/connect
allocates with `++local_port` (pre-increment). -/

/-- Value of the per-transport ephemeral port counter set by
network::udp::init_layer and network::tcp::init_layer. -/
def init_local_port : Nat := 1023

/-- Counter value after k allocations (each allocation is ++local_port). -/
def counterAfter : Nat → Nat
  | 0 => init_local_port
  | k + 1 => counterAfter k + 1

/-- Port assigned by the (k+1)-th allocation after layer initialisation. -/
def assignedPort (k : Nat) : Nat := counterAfter k + 1

/-! ## TCP (tcp_layer.cpp) -/

namespace tcp

/-- timeout_ms of tcp_layer.cpp (milliseconds per attempt). -/
def timeout_ms : Nat := 1000

/-- max_tries of tcp_layer.cpp. -/
def max_tries : Nat := 5

/-! Flag accessors for the 16-bit flags-and-data-offset field, with the
bit positions of the std::bit_field declarations of tcp_layer.cpp
(fin = bit 0, syn = bit 1, rst = bit 2, psh = bit 3, ack = bit 4,
data offset = bits 12..15). -/

/-- FIN bit (bit 0) of the TCP flags field. -/
def flag_fin (f : Nat) : Bool := f % 2 == 1

/-- SYN bit (bit 1) of the TCP flags field. -/
def flag_syn (f : Nat) : Bool := f / 2 % 2 == 1

/-- RST bit (bit 2) of the TCP flags field. -/
def flag_rst (f : Nat) : Bool := f / 4 % 2 == 1

/-- PSH bit (bit 3) of the TCP flags field. -/
def flag_psh (f : Nat) : Bool := f / 8 % 2 == 1

/-- ACK bit (bit 4) of the TCP flags field. -/
def flag_ack (f : Nat) : Bool := f / 16 % 2 == 1

/-- Data-offset field (bits 12..15) of the TCP flags field. -/
def flag_data_offset (f : Nat) : Nat := f / 4096 % 16

/-- get_default_flags of tcp_layer.cpp: all flag bits clear, data offset
= default_tcp_header_length / 4 = 5. -/
def get_default_flags : Nat := 5 * 4096

/-- Flags of the SYN sent by network::tcp::connect. -/
def syn_flags : Nat := get_default_flags + 2

/-- Flags of a bare acknowledgement (get_default_flags with ack set). -/
def ack_only_flags : Nat := get_default_flags + 16

/-- Flags written by network::tcp::user_prepare_packet (PSH and ACK). -/
def psh_ack_flags : Nat := get_default_flags + 8 + 16

/-- Flags of the FIN/ACK sent by network::tcp::disconnect. -/
def fin_ack_flags : Nat := get_default_flags + 1 + 16

/-- The decoded transport view of a received TCP segment: ports, 32-bit
sequence and acknowledgement numbers, the 16-bit flags field (host
order) and the payload length computed by tcp_payload_len
(ip.total_len - ihl*4 - data_offset*4). -/
structure Segment where
  sourcePort : Nat
  targetPort : Nat
  seqNumber : Nat
  ackNumber : Nat
  flags : Nat
  payloadLen : Nat
deriving Repr, DecidableEq

/-- An outgoing TCP frame as written by prepare/finalize: sequence and
acknowledgement numbers, flags field and payload bytes.  Two frames are
byte-identical exactly when these components agree (ports, window and
checksum are functions of them and of the connection). -/
structure Frame where
  seqNumber : Nat
  ackNumber : Nat
  flags : Nat
  payload : List Nat
deriving Repr, DecidableEq

/-- A stream connection record (tcp_layer.cpp tcp_connection).  packets
is the circular_buffer of acknowledgement packets pushed by the decode
path (front = oldest). -/
structure tcp_connection where
  localPort : Nat
  serverPort : Nat
  serverAddress : Nat
  listening : Bool
  packets : List Segment
  connected : Bool
  ackNumber : Nat
  seqNumber : Nat
  socketId : Option Nat
deriving Repr, DecidableEq

/-- One retry window of the finalize-with-retry loop: ipOk is the result
of handing the frame to the IP layer for this attempt, delivered the
segments popped from the connection ack-queue during this window (in
arrival order); the window ends by timeout when no matching segment is
among them. -/
structure Attempt where
  ipOk : Bool
  delivered : List Segment
deriving Repr, DecidableEq

/-- Acknowledgement matching rule of network::tcp::finalize_packet: a
frame sent with SYN expects SYN+ACK, any other frame expects ACK. -/
def matchesAck (sourceFlags : Nat) (s : Segment) : Bool :=
  if flag_syn sourceFlags then flag_syn s.flags && flag_ack s.flags
  else flag_ack s.flags

/-- Scan the segments popped during one window for the first matching
acknowledgement (non-matching segments are discarded by the loop). -/
def findAck (sourceFlags : Nat) : List Segment → Option Segment
  | [] => none
  | s :: rest =>
    if matchesAck sourceFlags s then some s else findAck sourceFlags rest

/-- Outcome of the finalize-with-retry loop: the IP layer refused an
attempt, a matching acknowledgement was popped, or all tries timed
out. -/
inductive FinalizeOutcome
  | ipFail
  | matched (s : Segment)
  | exhausted
deriving Repr, DecidableEq

/-- The retry loop of network::tcp::finalize_packet: per attempt,
transmit the frame via the IP layer (abort when that fails), then drain
the ack-queue until a matching acknowledgement arrives or the window
times out.  Returns the number of successful transmissions and the
outcome. -/
def finalizeLoop (sourceFlags : Nat) : Nat → List Attempt → Nat × FinalizeOutcome
  | 0, _ => (0, .exhausted)
  | fuel + 1, attempts =>
    let a := attempts.headD { ipOk := true, delivered := [] }
    if a.ipOk then
      match findAck sourceFlags a.delivered with
      | some s => (1, .matched s)
      | none =>
        let r := finalizeLoop sourceFlags fuel attempts.tail
        (r.1 + 1, r.2)
    else (0, .ipFail)

/-- Effect of the finalize outcome on the connection (tcp_layer.cpp
lines 412, 507, 509-514): listening is raised at entry and lowered after
the loop — except on the early return of an IP-layer failure, which
leaves it raised; on a matched acknowledgement the new seq number is the
received ack number and the new ack number is the received seq number
plus one (32-bit wrap). -/
def finalizeApply (conn : tcp_connection) : FinalizeOutcome → tcp_connection
  | .matched s =>
    { conn with listening := false, seqNumber := s.ackNumber,
                ackNumber := (s.seqNumber + 1) % 2 ^ 32 }
  | .ipFail => { conn with listening := true }
  | .exhausted => { conn with listening := false }

/-- Error/success value of finalize_packet for each outcome. -/
def finalizeResultCode : FinalizeOutcome → Except SockError Unit
  | .matched _ => .ok ()
  | .ipFail => .error .lowerLayer
  | .exhausted => .error .tcpError

/-- network::tcp::finalize_packet on a prepared frame: compute the
checksum once, then run the retry loop (the transmitted bytes are never
modified inside the loop, so every attempt re-sends the identical
frame).  Returns the updated connection, the list of frames handed to
the IP layer, and the result value. -/
def finalize_packet (frame : Frame) (conn : tcp_connection)
    (attempts : List Attempt) :
    tcp_connection × List Frame × Except SockError Unit :=
  let r := finalizeLoop frame.flags max_tries attempts
  (finalizeApply conn r.2, List.replicate r.1 frame, finalizeResultCode r.2)

/-- network::tcp::send: require a connected socket, prepare a PSH|ACK
frame carrying the connection's current seq/ack numbers and the payload
(user_prepare_packet; prepOk is the success of the lower-layer
allocation), then finalize with retry. -/
def send (conn : tcp_connection) (buffer : List Nat) (prepOk : Bool)
    (attempts : List Attempt) :
    tcp_connection × List Frame × Except SockError Unit :=
  if conn.connected then
    if prepOk then
      let frame : Frame :=
        { seqNumber := conn.seqNumber, ackNumber := conn.ackNumber,
          flags := psh_ack_flags, payload := buffer }
      finalize_packet frame conn attempts
    else (conn, [], .error .lowerLayer)
  else (conn, [], .error .notConnected)

/-- Modify the element at position i of a list in place (identity when i
is out of range); used to model mutation through a stable connection
reference held in the connection table. -/
def listModify {α : Type} (f : α → α) : Nat → List α → List α
  | _, [] => []
  | 0, a :: rest => f a :: rest
  | n + 1, a :: rest => a :: listModify f n rest

/-- A kernel socket as seen by the TCP decode path: its id, the listen
flag, and the listen queue of arrived PSH payload segments (front =
oldest). -/
structure SocketRec where
  id : Nat
  listen : Bool
  listenPackets : List Segment
deriving Repr, DecidableEq

/-- The state touched by the TCP decode path: the connection table and
the kernel sockets. -/
structure TcpState where
  conns : List tcp_connection
  socks : List SocketRec
deriving Repr, DecidableEq

/-- Modelled from the spec: connection_handler::get_connection_for_packet
(net/connection_handler.hpp is not part of the sources).  Per spec §4.G
the table maps (local_port, remote_port) to a connection and lookup keys
are the packet's (remote_port, local_port): the connection whose
server_port is the packet's source port and whose local_port is the
packet's target port.  Returns the index of the connection in the
table. -/
def get_connection_for_packet (conns : List tcp_connection)
    (sourcePort targetPort : Nat) : Option Nat :=
  conns.findIdx? fun c => c.serverPort == sourcePort && c.localPort == targetPort

/-- Push a segment onto the listen queue of the socket with the given id
if that socket is in listen mode (the decode path clones the packet and
notifies the condition variable). -/
def pushToSocket (socks : List SocketRec) (sid : Nat) (pkt : Segment) :
    List SocketRec :=
  socks.map fun s =>
    if s.id == sid && s.listen then
      { s with listenPackets := s.listenPackets ++ [pkt] }
    else s

/-- The standalone acknowledgement frame synthesised at the end of
network::tcp::decode for a PSH segment: seq = next_seq, ack = next_ack,
flags = default with ACK, no payload. -/
def mkAckFrame (nextSeq nextAck : Nat) : Frame :=
  { seqNumber := nextSeq, ackNumber := nextAck, flags := ack_only_flags,
    payload := [] }

/-- network::tcp::decode on a received segment.  next_seq is the
packet's ack number and next_ack the packet's seq number plus its
payload length (32-bit truncation at the connection-field assignment).
When the lookup finds a connection: update its seq/ack numbers, push a
copy onto its ack-queue when it is listening, and push a copy onto the
attached socket's listen queue when the segment has PSH and the socket
listens.  Whether or not a connection was found, a PSH segment is
answered with a standalone ACK frame (transmitted only when the
lower-layer packet preparation, prepOk, succeeds; on failure the decoder
logs and returns).  Returns the new state and the transmitted frames. -/
def decode (st : TcpState) (pkt : Segment) (prepOk : Bool) :
    TcpState × List Frame :=
  let nextSeq := pkt.ackNumber
  let nextAck := (pkt.seqNumber + pkt.payloadLen) % 2 ^ 32
  let st1 :=
    match get_connection_for_packet st.conns pkt.sourcePort pkt.targetPort with
    | some i =>
      let upd := fun (c : tcp_connection) =>
        let c1 := { c with seqNumber := nextSeq, ackNumber := nextAck }
        if c1.listening then { c1 with packets := c1.packets ++ [pkt] } else c1
      let conns1 := listModify upd i st.conns
      let socks1 :=
        if flag_psh pkt.flags then
          match (st.conns.get? i).bind (fun c => c.socketId) with
          | some sid => pushToSocket st.socks sid pkt
          | none => st.socks
        else st.socks
      TcpState.mk conns1 socks1
    | none => st
  let sent :=
    if flag_psh pkt.flags && prepOk then [mkAckFrame nextSeq nextAck] else []
  (st1, sent)

deriving instance DecidableEq for Except

/-- Result of network::tcp::connect: the connection table, the ephemeral
port counter, the socket's connection_data pointer (index of the linked
connection in the table) and the returned value. -/
structure ConnectOut where
  conns : List tcp_connection
  counter : Nat
  sockConnectionData : Option Nat
  result : Except SockError Nat
deriving Repr, DecidableEq

/-- Tail of network::tcp::connect after the SYN finalize-with-retry
returned: on its success, prepare (prep2Ok) and fire-and-forget a bare
ACK (its transmission result is discarded by the source), mark the
connection connected and return the local port; on any failure return
that error.  No path removes the connection from the table. -/
def connect_finish (conns : List tcp_connection) (port idx : Nat)
    (finConn : tcp_connection) (res : Except SockError Unit)
    (prep2Ok : Bool) : ConnectOut :=
  match res with
  | .ok _ =>
    if prep2Ok then
      { conns := conns ++ [{ finConn with connected := true }],
        counter := port, sockConnectionData := some idx, result := .ok port }
    else
      { conns := conns ++ [finConn], counter := port,
        sockConnectionData := some idx, result := .error .lowerLayer }
  | .error e =>
    { conns := conns ++ [finConn], counter := port,
      sockConnectionData := some idx, result := .error e }

/-- network::tcp::connect: create a connection (local_port =
++local_port, pre-increment), link socket and connection, prepare a SYN
(prep1Ok), finalize it with retry (the SYN/ACK wait), then finish via
connect_finish.  Every failure returns the corresponding error without
removing the connection from the table. -/
def connect (conns : List tcp_connection) (counter : Nat)
    (sockId serverPort serverAddr : Nat)
    (prep1Ok : Bool) (attempts : List Attempt) (prep2Ok : Bool) : ConnectOut :=
  let port := counter + 1
  let conn0 : tcp_connection :=
    { localPort := port, serverPort := serverPort, serverAddress := serverAddr,
      listening := false, packets := [], connected := false,
      ackNumber := 0, seqNumber := 0, socketId := some sockId }
  let idx := conns.length
  if prep1Ok then
    let synFrame : Frame :=
      { seqNumber := 0, ackNumber := 0, flags := syn_flags, payload := [] }
    let fin := finalize_packet synFrame conn0 attempts
    connect_finish conns port idx fin.1 fin.2.2 prep2Ok
  else
    { conns := conns ++ [conn0], counter := port,
      sockConnectionData := some idx, result := .error .lowerLayer }

/-- Matching rule of the disconnect retry loop: the first popped segment
with FIN and ACK matches (as a combined FIN/ACK, Bool true), otherwise
the first with ACK matches (plain acknowledgement, Bool false);
segments without ACK are discarded. -/
def findDiscAck : List Segment → Option (Segment × Bool)
  | [] => none
  | s :: rest =>
    if flag_fin s.flags && flag_ack s.flags then some (s, true)
    else if flag_ack s.flags then some (s, false)
    else findDiscAck rest

/-- Outcome of the disconnect retry loop. -/
inductive DiscOutcome
  | ipFail
  | matched (s : Segment) (finAck : Bool)
  | exhausted
deriving Repr, DecidableEq

/-- The FIN/ACK retry loop of network::tcp::disconnect (same shape as
finalizeLoop, with the disconnect matching rule). -/
def discLoop : Nat → List Attempt → DiscOutcome
  | 0, _ => .exhausted
  | fuel + 1, attempts =>
    let a := attempts.headD { ipOk := true, delivered := [] }
    if a.ipOk then
      match findDiscAck a.delivered with
      | some (s, fa) => .matched s fa
      | none => discLoop fuel attempts.tail
    else .ipFail

/-- Scan the segments of the second disconnect wait window for the first
FIN/ACK. -/
def findFinAck : List Segment → Option Segment
  | [] => none
  | s :: rest =>
    if flag_fin s.flags && flag_ack s.flags then some s else findFinAck rest

/-- Environment of one network::tcp::disconnect run: result of the
FIN/ACK packet preparation, the retry windows, the segments delivered
during the second wait (entered when a plain ACK arrived first) and the
result of the final bare-ACK preparation. -/
structure DisconnectEnv where
  prepOk : Bool
  attempts : List Attempt
  finWaitDelivered : List Segment
  prep2Ok : Bool
deriving Repr, DecidableEq

/-- network::tcp::disconnect on the connection at index i of the table:
require connected, prepare a FIN/ACK, send it with retry; on a plain ACK
keep waiting for the FIN/ACK; update seq/ack from each matched segment;
finally send a bare ACK, mark disconnected and remove the connection
from the table.  Error paths leave the connection in the table (the
early returns before line 756 also leave the listening flag raised). -/
def disconnect (conns : List tcp_connection) (i : Nat) (env : DisconnectEnv) :
    List tcp_connection × Except SockError Unit :=
  match conns[i]? with
  | none => (conns, .error .notConnected)
  | some c =>
    if c.connected then
      if env.prepOk then
        let c1 := { c with listening := true }
        match discLoop max_tries env.attempts with
        | .ipFail => (listModify (fun _ => c1) i conns, .error .lowerLayer)
        | .exhausted => (listModify (fun _ => c1) i conns, .error .tcpError)
        | .matched s finAck =>
          let c2 := { c1 with seqNumber := s.ackNumber,
                              ackNumber := (s.seqNumber + 1) % 2 ^ 32 }
          if finAck then
            let c3 := { c2 with listening := false }
            if env.prep2Ok then (conns.eraseIdx i, .ok ())
            else (listModify (fun _ => c3) i conns, .error .lowerLayer)
          else
            match findFinAck env.finWaitDelivered with
            | none => (listModify (fun _ => c2) i conns, .error .tcpError)
            | some s2 =>
              let c4 := { c2 with seqNumber := s2.ackNumber,
                                  ackNumber := (s2.seqNumber + 1) % 2 ^ 32,
                                  listening := false }
              if env.prep2Ok then (conns.eraseIdx i, .ok ())
              else (listModify (fun _ => c4) i conns, .error .lowerLayer)
      else (conns, .error .lowerLayer)
    else (conns, .error .notConnected)

end tcp

/-! ## ICMP (icmp_layer.cpp) -/

namespace icmp

/-- The echo request as seen by the decode path: whether the internet
destination equals the interface address, the two 16-bit words of the
rest-of-header (identifier and sequence number, as read by the 16-bit
checksum accumulator) and the data bytes following the 8-byte ICMP
header. -/
structure EchoRequest where
  targetIsOurIp : Bool
  identSeqWord0 : Nat
  identSeqWord1 : Nat
  data : List Nat
deriving Repr, DecidableEq

/-- An emitted echo reply: type and code bytes, the stored checksum, the
copied rest-of-header words and the data bytes placed after the
header. -/
structure EchoReply where
  icmpType : Nat
  code : Nat
  checksum : Nat
  identSeqWord0 : Nat
  identSeqWord1 : Nat
  data : List Nat
deriving Repr, DecidableEq

/-- Events of the echo-request branch of network::icmp::decode, in
program order.  finalized true records the call of
network::icmp::finalize_packet on a successfully prepared reply;
finalized false records the same call made on *reply_packet after
kernel_prepare_packet returned an error (icmp_layer.cpp line 94 sits
outside the success check). -/
inductive Event
  | copiedHeader
  | loggedPrepareFailure
  | finalized (prepared : Bool)
deriving Repr, DecidableEq

/-- The echo-request branch of network::icmp::decode.  When the target
address is ours, ask for a reply buffer with packet_descriptor payload
size 0 (prepOk is the allocation result); on success copy only the
4-byte echo_request_header (identifier and sequence) into the reply —
the request's data bytes are not copied, the reply buffer has no room
for them — and finalize; on failure log, and still reach the
finalize_packet call with the failed result.  Returns the events and
the emitted reply, whose checksum finalize computes over the 8-byte
header only (compute_checksum with payload_size 0). -/
def decode_echo_request (req : EchoRequest) (prepOk : Bool) :
    List Event × Option EchoReply :=
  if req.targetIsOurIp then
    if prepOk then
      let reply : EchoReply :=
        { icmpType := 0, code := 0,
          checksum := icmp_compute_checksum
            [0, req.identSeqWord0, req.identSeqWord1],
          identSeqWord0 := req.identSeqWord0,
          identSeqWord1 := req.identSeqWord1,
          data := [] }
      ([.copiedHeader, .finalized true], some reply)
    else
      ([.loggedPrepareFailure, .finalized false], none)
  else ([], none)

end icmp

/-! ## Helper lemmas -/

/-- Unfolding lemma: sem_unlockN wakes the first n queued processes in
queue order when the queue holds at least n waiters. -/
lemma sem_unlockN_take (n : Nat) (s : Semaphore) (h : n ≤ s.queue.length) :
    (sem_unlockN s n).2 = s.queue.take n := by
  induction n generalizing s with
  | zero => simp [sem_unlockN]
  | succ m ih =>
    cases hq : s.queue with
    | nil => rw [hq] at h; simp at h
    | cons p rest =>
      have hu : sem_unlock s = ({ s with queue := rest }, some p) := by
        simp [sem_unlock, hq]
      have hr : m ≤ rest.length := by
        rw [hq] at h; simpa using h
      have := ih { s with queue := rest } hr
      simp [sem_unlockN, hu, hq, this]

/-- The finalize-with-retry loop performs at most fuel transmissions. -/
lemma finalizeLoop_count_le (sf fuel : Nat) (attempts : List tcp.Attempt) :
    (tcp.finalizeLoop sf fuel attempts).1 ≤ fuel := by
  induction fuel generalizing attempts with
  | zero => simp [tcp.finalizeLoop]
  | succ n ih =>
    unfold tcp.finalizeLoop
    dsimp only
    split
    · cases hf : tcp.findAck sf (attempts.headD { ipOk := true, delivered := [] }).delivered with
      | none => simpa [hf] using Nat.succ_le_succ (ih attempts.tail)
      | some s => simp [hf]
    · simp

/-- finalizeApply never touches the connected flag. -/
lemma finalizeApply_connected (conn : tcp.tcp_connection) (o : tcp.FinalizeOutcome) :
    (tcp.finalizeApply conn o).connected = conn.connected := by
  cases o <;> rfl

/-- finalizeApply never touches the socket back-pointer. -/
lemma finalizeApply_socketId (conn : tcp.tcp_connection) (o : tcp.FinalizeOutcome) :
    (tcp.finalizeApply conn o).socketId = conn.socketId := by
  cases o <;> rfl

/-- A connection appended to the table is found at index length, and
disconnect on it fails with NOT_CONNECTED — leaving the table unchanged
— when its connected flag is false. -/
lemma disconnect_not_connected (conns : List tcp.tcp_connection)
    (c : tcp.tcp_connection) (denv : tcp.DisconnectEnv)
    (hc : c.connected = false) :
    (conns ++ [c])[conns.length]? = some c ∧
    tcp.disconnect (conns ++ [c]) conns.length denv =
      (conns ++ [c], .error .notConnected) := by
  have hget : (conns ++ [c])[conns.length]? = some c :=
    List.getElem?_concat_length conns c
  refine ⟨hget, ?_⟩
  unfold tcp.disconnect
  rw [hget]
  simp [hc]

/-- On an error result, connect_finish has appended exactly the
finalized connection to the table. -/
lemma connect_finish_error_conns (conns : List tcp.tcp_connection)
    (port idx : Nat) (finConn : tcp.tcp_connection)
    (res : Except SockError Unit) (p2 : Bool) (e : SockError)
    (h : (tcp.connect_finish conns port idx finConn res p2).result = .error e) :
    (tcp.connect_finish conns port idx finConn res p2).conns = conns ++ [finConn] ∧
    (tcp.connect_finish conns port idx finConn res p2).sockConnectionData = some idx := by
  cases res with
  | ok a =>
    cases p2 with
    | false => exact ⟨rfl, rfl⟩
    | true => exact absurd h (by simp [tcp.connect_finish])
  | error e2 => exact ⟨rfl, rfl⟩

/-- connect_finish always moves the counter to the allocated port and
either succeeds with that port or fails with some error. -/
lemma connect_finish_counter_result (conns : List tcp.tcp_connection)
    (port idx : Nat) (finConn : tcp.tcp_connection)
    (res : Except SockError Unit) (p2 : Bool) :
    (tcp.connect_finish conns port idx finConn res p2).counter = port ∧
    ((tcp.connect_finish conns port idx finConn res p2).result = .ok port ∨
     ∃ e, (tcp.connect_finish conns port idx finConn res p2).result = .error e) := by
  cases res with
  | ok a =>
    cases p2 with
    | false => exact ⟨rfl, Or.inr ⟨_, rfl⟩⟩
    | true => exact ⟨rfl, Or.inl rfl⟩
  | error e => exact ⟨rfl, Or.inr ⟨_, rfl⟩⟩

/-! ## Claims -/

/-- C3: semaphore::unlock with a non-empty waiter queue dequeues the
oldest waiter (the queue front) and unblocks it without touching the
counter; with an empty waiter queue it increments the counter by exactly
one; consequently n unlocks wake the first n waiters in the FIFO order
in which they blocked. -/
theorem semaphore_unlock_fifo :
    (∀ s : Semaphore, s.queue = [] →
       sem_unlock s = ({ s with value := s.value + 1 }, none)) ∧
    (∀ (s : Semaphore) (p : Nat) (rest : List Nat), s.queue = p :: rest →
       sem_unlock s = ({ s with queue := rest }, some p)) ∧
    (∀ (s : Semaphore) (n : Nat), n ≤ s.queue.length →
       (sem_unlockN s n).2 = s.queue.take n) := by
  refine ⟨?_, ?_, ?_⟩
  · intro s h
    simp [sem_unlock, h]
  · intro s p rest h
    simp [sem_unlock, h]
  · intro s n h
    exact sem_unlockN_take n s h

/-- Witness for C3, the S6 scenario: with initial value 0 and processes
1, 2, 3 blocking in that order, three unlocks wake them in the same
order. -/
theorem semaphore_unlock_fifo_witness :
    (sem_unlockN (sem_lockAll ⟨0, []⟩ [1, 2, 3]) 3).2 = [1, 2, 3] := by
  have h := semaphore_unlock_fifo.2.2 (sem_lockAll ⟨0, []⟩ [1, 2, 3]) 3 (by decide)
  simpa using h

/-- C10: socket::get_packet returns a packet whose fd field equals the
requested fd whenever socket::has_packet holds for that fd; when
has_packet is false, get_packet reaches thor_unreachable (modelled as
none), a fatal error rather than a returned error value, so has_packet
is the required guard. -/
theorem socket_get_packet_guard (packets : List PreparedPacket) (fd : Nat) :
    (has_packet packets fd = true →
       ∃ p, get_packet packets fd = some p ∧ p.fd = fd) ∧
    (has_packet packets fd = false → get_packet packets fd = none) := by
  induction packets with
  | nil => simp [has_packet, get_packet]
  | cons q rest ih =>
    by_cases hq : q.fd = fd
    · have hfind : get_packet (q :: rest) fd = some q := by
        unfold get_packet
        exact List.find?_cons_of_pos _ (by simp [hq])
      refine ⟨fun _ => ⟨q, hfind, hq⟩, fun hfalse => ?_⟩
      exfalso
      simp [has_packet, hq] at hfalse
    · have hfind : get_packet (q :: rest) fd = get_packet rest fd := by
        unfold get_packet
        exact List.find?_cons_of_neg _ (by simp [hq])
      have hhas : has_packet (q :: rest) fd = has_packet rest fd := by
        simp [has_packet, hq]
      rw [hfind, hhas]
      exact ih

/-- Witness for C10 at a concrete descriptor table: fd 5 is present and
found with matching fd field; fd 7 is absent and get_packet yields no
packet. -/
theorem socket_get_packet_guard_witness :
    (∃ p, get_packet [{ fd := 5, payload := [1] }] 5 = some p ∧ p.fd = 5) ∧
    get_packet [{ fd := 5, payload := [1] }] 7 = none :=
  ⟨(socket_get_packet_guard [{ fd := 5, payload := [1] }] 5).1 (by decide),
   (socket_get_packet_guard [{ fd := 5, payload := [1] }] 7).2 (by decide)⟩

/-- C8: the per-transport ephemeral counter is 1023 after init_layer and
is pre-incremented at every allocation: udp client_bind assigns and
returns counter + 1, tcp connect moves the counter to counter + 1 and
returns the assigned port on success; hence the k-th allocation after
initialisation yields port 1024 + k — the first is 1024 and the sequence
is strictly increasing. -/
theorem ephemeral_port_allocation :
    init_local_port = 1023 ∧
    assignedPort 0 = 1024 ∧
    (∀ k, assignedPort k = 1024 + k) ∧
    (∀ j k, j < k → assignedPort j < assignedPort k) ∧
    (∀ (conns : List udp.udp_connection) (counter sid sp sa : Nat),
       (udp.client_bind conns counter sid sp sa).2.1 = counter + 1 ∧
       (udp.client_bind conns counter sid sp sa).2.2 = counter + 1) ∧
    (∀ (conns : List tcp.tcp_connection) (counter sid sp sa : Nat)
       (p1 : Bool) (atts : List tcp.Attempt) (p2 : Bool),
       (tcp.connect conns counter sid sp sa p1 atts p2).counter = counter + 1 ∧
       ((tcp.connect conns counter sid sp sa p1 atts p2).result = .ok (counter + 1) ∨
        ∃ e, (tcp.connect conns counter sid sp sa p1 atts p2).result = .error e)) ∧
    (∀ (k : Nat) (conns : List udp.udp_connection) (sid sp sa : Nat),
       (udp.client_bind conns (counterAfter k) sid sp sa).2.2 = 1024 + k) := by
  have hca : ∀ k, counterAfter k = 1023 + k := by
    intro k
    induction k with
    | zero => rfl
    | succ m ih => simp [counterAfter, ih]; omega
  have hap : ∀ k, assignedPort k = 1024 + k := by
    intro k
    simp [assignedPort, hca]; omega
  refine ⟨rfl, rfl, hap, ?_, ?_, ?_, ?_⟩
  · intro j k hjk
    rw [hap, hap]
    omega
  · intro conns counter sid sp sa
    exact ⟨rfl, rfl⟩
  · intro conns counter sid sp sa p1 atts p2
    cases p1 with
    | false => exact ⟨rfl, Or.inr ⟨_, rfl⟩⟩
    | true => exact connect_finish_counter_result _ _ _ _ _ _
  · intro k conns sid sp sa
    show counterAfter k + 1 = 1024 + k
    rw [hca]
    omega

/-- Witness for C8: the first allocation after initialisation (counter
1023) is port 1024 and the port sequence is strictly increasing at a
concrete pair of indices. -/
theorem ephemeral_port_allocation_witness :
    (udp.client_bind [] (counterAfter 0) 7 80 5).2.2 = 1024 ∧
    assignedPort 0 < assignedPort 3 :=
  ⟨ephemeral_port_allocation.2.2.2.2.2.2 0 [] 7 80 5,
   ephemeral_port_allocation.2.2.2.1 0 3 (by decide)⟩

/-- C4 (failing input of scenario S1): for the echo request with
identifier 0x1234, sequence 1 and the eight data bytes "abcdefgh"
destined at our address, the decoder emits exactly one reply; it carries
the identifier and sequence, but its data payload is empty — the reply
buffer is prepared with payload size 0 and only the 4-byte
echo_request_header is copied, so the request's data is not echoed and
the checksum is computed over the bare 8-byte header.  This contradicts
the claimed byte-identical payload. -/
theorem icmp_echo_reply_drops_data :
    (icmp.decode_echo_request
        { targetIsOurIp := true, identSeqWord0 := 0x1234, identSeqWord1 := 1,
          data := [97, 98, 99, 100, 101, 102, 103, 104] } true).2 =
      some { icmpType := 0, code := 0,
             checksum := icmp_compute_checksum [0, 0x1234, 1],
             identSeqWord0 := 0x1234, identSeqWord1 := 1, data := [] } ∧
    ([97, 98, 99, 100, 101, 102, 103, 104] : List Nat) ≠ [] := by
  exact ⟨rfl, by decide⟩

/-- C5 (failing input of scenario S2 receive): a queued datagram with the
four payload bytes "ping" (UDP length field 12 as written by
prepare_packet) and a caller buffer of exactly the payload length 4:
the claim requires success, but network::udp::receive compares the
buffer against the full length field — header included — and fails with
BUFFER_SMALL. -/
theorem udp_receive_uses_full_length_field :
    ([112, 105, 110, 103] : List Nat).length = 4 ∧
    udp.prepare_packet_length 4 = 12 ∧
    udp.receive
        { lengthField := udp.prepare_packet_length 4,
          payloadBytes := [112, 105, 110, 103] } 4 =
      .error .bufferSmall := by
  exact ⟨rfl, rfl, rfl⟩

/-- Counterexample for C6: a PSH segment for which no connection exists
(empty connection table) still causes the decoder to transmit a
standalone acknowledgement frame — the "Acknowledge if necessary" block
of network::tcp::decode sits outside the connection check. -/
theorem tcp_decode_no_connection_counterexample :
    (tcp.decode { conns := [], socks := [] }
        { sourcePort := 80, targetPort := 1024, seqNumber := 5, ackNumber := 7,
          flags := tcp.psh_ack_flags, payloadLen := 3 } true).2 ≠ [] := by
  decide

/-- C6 amended: when the connection lookup finds nothing, the stream
decoder modifies no connection, socket, or queue state, and transmits
nothing when the segment lacks PSH (or when the acknowledgement packet
preparation fails); but for a PSH segment with a successful preparation
it still synthesises and transmits one standalone acknowledgement frame
(seq = the packet's ack number, ack = the packet's seq number plus its
payload length). -/
theorem tcp_decode_no_connection_behaviour (st : tcp.TcpState)
    (pkt : tcp.Segment) (prepOk : Bool)
    (h : tcp.get_connection_for_packet st.conns pkt.sourcePort pkt.targetPort = none) :
    (tcp.decode st pkt prepOk).1 = st ∧
    (tcp.decode st pkt prepOk).2 =
      (if tcp.flag_psh pkt.flags && prepOk then
        [tcp.mkAckFrame pkt.ackNumber ((pkt.seqNumber + pkt.payloadLen) % 2 ^ 32)]
       else []) := by
  unfold tcp.decode
  rw [h]
  exact ⟨rfl, rfl⟩

/-- Witness for the C6 amended theorem: on the empty table, a non-PSH
segment produces no state change and no frame. -/
theorem tcp_decode_no_connection_behaviour_witness :
    (tcp.decode { conns := [], socks := [] }
        { sourcePort := 80, targetPort := 1024, seqNumber := 5, ackNumber := 7,
          flags := tcp.ack_only_flags, payloadLen := 0 } true).1 =
      { conns := [], socks := [] } ∧
    (tcp.decode { conns := [], socks := [] }
        { sourcePort := 80, targetPort := 1024, seqNumber := 5, ackNumber := 7,
          flags := tcp.ack_only_flags, payloadLen := 0 } true).2 =
      (if tcp.flag_psh tcp.ack_only_flags && true then
        [tcp.mkAckFrame 7 ((5 + 0) % 2 ^ 32)] else []) :=
  tcp_decode_no_connection_behaviour { conns := [], socks := [] }
    { sourcePort := 80, targetPort := 1024, seqNumber := 5, ackNumber := 7,
      flags := tcp.ack_only_flags, payloadLen := 0 } true (by decide)

/-- C7 (failing input): when the echo-reply buffer preparation fails
(out of memory) for an echo request destined at our address, the
decoder logs the failure and nevertheless reaches the
network::icmp::finalize_packet call with the failed preparation result —
icmp_layer.cpp line 94 is outside the success check — contradicting the
claim that the echo-reply path never finalises a packet whose
preparation failed. -/
theorem icmp_prepare_failure_still_finalized :
    (icmp.decode_echo_request
        { targetIsOurIp := true, identSeqWord0 := 0x1234, identSeqWord1 := 1,
          data := [] } false).1 =
      [.loggedPrepareFailure, .finalized false] ∧
    icmp.Event.finalized false ∈
      (icmp.decode_echo_request
        { targetIsOurIp := true, identSeqWord0 := 0x1234, identSeqWord1 := 1,
          data := [] } false).1 := by
  exact ⟨rfl, by decide⟩

/-- C1: whenever network::tcp::send (a PSH|ACK data push through
finalize_packet) returns success, a matching acknowledgement was popped
from the connection's ack-queue, the connection's new sequence number
equals the ack number carried by that acknowledgement, and the
connection's new ack number equals the sequence number carried by that
acknowledgement plus one (32-bit wrap). -/
theorem tcp_send_seq_ack_advancement
    (conn : tcp.tcp_connection) (buffer : List Nat) (prepOk : Bool)
    (attempts : List tcp.Attempt)
    (h : (tcp.send conn buffer prepOk attempts).2.2 = .ok ()) :
    ∃ s : tcp.Segment,
      (tcp.finalizeLoop tcp.psh_ack_flags tcp.max_tries attempts).2 = .matched s ∧
      (tcp.send conn buffer prepOk attempts).1.seqNumber = s.ackNumber ∧
      (tcp.send conn buffer prepOk attempts).1.ackNumber =
        (s.seqNumber + 1) % 2 ^ 32 := by
  unfold tcp.send at h ⊢
  cases hc : conn.connected with
  | false => exact absurd h (by simp [hc])
  | true =>
    cases hp : prepOk with
    | false => exact absurd h (by simp [hc, hp])
    | true =>
      simp only [hc, hp, if_true] at h ⊢
      unfold tcp.finalize_packet at h ⊢
      dsimp only at h ⊢
      rcases ho : (tcp.finalizeLoop tcp.psh_ack_flags tcp.max_tries attempts).2
        with _ | s | _
      · rw [ho] at h
        exact absurd h (by simp [tcp.finalizeResultCode])
      · exact ⟨s, rfl, rfl, rfl⟩
      · rw [ho] at h
        exact absurd h (by simp [tcp.finalizeResultCode])

/-- Witness for C1, the S4 scenario: a connection with seq 1 and ack
1001 sends a three-byte payload; the first window times out, the second
delivers an ACK with seq 1001 and ack 4; afterwards the connection's
seq number is 4 (the received ack) and its ack number 1002 (the
received seq plus one). -/
theorem tcp_send_seq_ack_advancement_witness :
    ∃ s : tcp.Segment,
      (tcp.finalizeLoop tcp.psh_ack_flags tcp.max_tries
        [{ ipOk := true, delivered := [] },
         { ipOk := true, delivered :=
            [{ sourcePort := 80, targetPort := 1024, seqNumber := 1001,
               ackNumber := 4, flags := tcp.ack_only_flags,
               payloadLen := 0 }] }]).2 = .matched s ∧
      (tcp.send
        { localPort := 1024, serverPort := 80, serverAddress := 5,
          listening := false, packets := [], connected := true,
          ackNumber := 1001, seqNumber := 1, socketId := some 7 }
        [120, 121, 122] true
        [{ ipOk := true, delivered := [] },
         { ipOk := true, delivered :=
            [{ sourcePort := 80, targetPort := 1024, seqNumber := 1001,
               ackNumber := 4, flags := tcp.ack_only_flags,
               payloadLen := 0 }] }]).1.seqNumber = s.ackNumber ∧
      (tcp.send
        { localPort := 1024, serverPort := 80, serverAddress := 5,
          listening := false, packets := [], connected := true,
          ackNumber := 1001, seqNumber := 1, socketId := some 7 }
        [120, 121, 122] true
        [{ ipOk := true, delivered := [] },
         { ipOk := true, delivered :=
            [{ sourcePort := 80, targetPort := 1024, seqNumber := 1001,
               ackNumber := 4, flags := tcp.ack_only_flags,
               payloadLen := 0 }] }]).1.ackNumber =
        (s.seqNumber + 1) % 2 ^ 32 :=
  tcp_send_seq_ack_advancement _ _ _ _ (by decide)

/-- C2: one finalize-with-retry run transmits at most max_tries frames,
every transmitted frame — the retries included — is identical to the
original (same seq, ack, flags, payload), and the connection's seq and
ack numbers either stay exactly as they were or are updated from the
matching acknowledgement popped from the ack-queue; no re-transmission
by itself modifies them. -/
theorem tcp_finalize_retry_identical_frames
    (frame : tcp.Frame) (conn : tcp.tcp_connection)
    (attempts : List tcp.Attempt) :
    (∀ g ∈ (tcp.finalize_packet frame conn attempts).2.1, g = frame) ∧
    (tcp.finalize_packet frame conn attempts).2.1.length ≤ tcp.max_tries ∧
    (((tcp.finalize_packet frame conn attempts).1.seqNumber = conn.seqNumber ∧
      (tcp.finalize_packet frame conn attempts).1.ackNumber = conn.ackNumber) ∨
     (∃ s : tcp.Segment,
        (tcp.finalizeLoop frame.flags tcp.max_tries attempts).2 = .matched s ∧
        (tcp.finalize_packet frame conn attempts).1.seqNumber = s.ackNumber ∧
        (tcp.finalize_packet frame conn attempts).1.ackNumber =
          (s.seqNumber + 1) % 2 ^ 32)) := by
  refine ⟨?_, ?_, ?_⟩
  · intro g hg
    unfold tcp.finalize_packet at hg
    dsimp only at hg
    exact List.eq_of_mem_replicate hg
  · unfold tcp.finalize_packet
    dsimp only
    rw [List.length_replicate]
    exact finalizeLoop_count_le _ _ _
  · unfold tcp.finalize_packet
    dsimp only
    rcases ho : (tcp.finalizeLoop frame.flags tcp.max_tries attempts).2
      with _ | s | _
    · exact Or.inl ⟨rfl, rfl⟩
    · exact Or.inr ⟨s, rfl, rfl, rfl⟩
    · exact Or.inl ⟨rfl, rfl⟩

/-- Witness for C2 (the S4 retry scenario is covered by the general
statement; this instantiates it at those values). -/
theorem tcp_finalize_retry_identical_frames_witness :
    (∀ g ∈ (tcp.finalize_packet
        { seqNumber := 1, ackNumber := 1001, flags := tcp.psh_ack_flags,
          payload := [120, 121, 122] }
        { localPort := 1024, serverPort := 80, serverAddress := 5,
          listening := false, packets := [], connected := true,
          ackNumber := 1001, seqNumber := 1, socketId := some 7 }
        [{ ipOk := true, delivered := [] },
         { ipOk := true, delivered :=
            [{ sourcePort := 80, targetPort := 1024, seqNumber := 1001,
               ackNumber := 4, flags := tcp.ack_only_flags,
               payloadLen := 0 }] }]).2.1,
      g = { seqNumber := 1, ackNumber := 1001, flags := tcp.psh_ack_flags,
            payload := [120, 121, 122] }) ∧
    (tcp.finalize_packet
        { seqNumber := 1, ackNumber := 1001, flags := tcp.psh_ack_flags,
          payload := [120, 121, 122] }
        { localPort := 1024, serverPort := 80, serverAddress := 5,
          listening := false, packets := [], connected := true,
          ackNumber := 1001, seqNumber := 1, socketId := some 7 }
        [{ ipOk := true, delivered := [] },
         { ipOk := true, delivered :=
            [{ sourcePort := 80, targetPort := 1024, seqNumber := 1001,
               ackNumber := 4, flags := tcp.ack_only_flags,
               payloadLen := 0 }] }]).2.1.length ≤ tcp.max_tries :=
  ⟨(tcp_finalize_retry_identical_frames _ _ _).1,
   (tcp_finalize_retry_identical_frames _ _ _).2.1⟩

/-- C9: whenever network::tcp::connect returns an error — SYN
preparation failure, handshake exhaustion or final-ACK preparation
failure — the connection created at the start of connect is still in
the connection table at the index stored in the socket's
connection_data, its socket back-pointer is set, its connected flag is
false, and a subsequent disconnect in any environment fails with
NOT_CONNECTED without removing it from the table. -/
theorem tcp_connect_error_keeps_connection
    (conns : List tcp.tcp_connection) (counter sockId sp sa : Nat)
    (p1 : Bool) (atts : List tcp.Attempt) (p2 : Bool) (e : SockError)
    (denv : tcp.DisconnectEnv)
    (h : (tcp.connect conns counter sockId sp sa p1 atts p2).result = .error e) :
    (tcp.connect conns counter sockId sp sa p1 atts p2).conns.length =
      conns.length + 1 ∧
    (tcp.connect conns counter sockId sp sa p1 atts p2).sockConnectionData =
      some conns.length ∧
    ∃ c : tcp.tcp_connection,
      (tcp.connect conns counter sockId sp sa p1 atts p2).conns[conns.length]? =
        some c ∧
      c.socketId = some sockId ∧ c.connected = false ∧
      tcp.disconnect (tcp.connect conns counter sockId sp sa p1 atts p2).conns
          conns.length denv =
        ((tcp.connect conns counter sockId sp sa p1 atts p2).conns,
         .error .notConnected) := by
  cases p1 with
  | false =>
    refine ⟨by simp [tcp.connect], rfl, ?_⟩
    refine ⟨_, (disconnect_not_connected conns _ denv rfl).1, rfl, rfl,
      (disconnect_not_connected conns _ denv rfl).2⟩
  | true =>
    have herr := connect_finish_error_conns conns (counter + 1) conns.length
      (tcp.finalize_packet
        { seqNumber := 0, ackNumber := 0, flags := tcp.syn_flags, payload := [] }
        { localPort := counter + 1, serverPort := sp, serverAddress := sa,
          listening := false, packets := [], connected := false,
          ackNumber := 0, seqNumber := 0, socketId := some sockId } atts).1
      (tcp.finalize_packet
        { seqNumber := 0, ackNumber := 0, flags := tcp.syn_flags, payload := [] }
        { localPort := counter + 1, serverPort := sp, serverAddress := sa,
          listening := false, packets := [], connected := false,
          ackNumber := 0, seqNumber := 0, socketId := some sockId } atts).2.2
      p2 e h
    have hconn : (tcp.finalize_packet
        { seqNumber := 0, ackNumber := 0, flags := tcp.syn_flags, payload := [] }
        { localPort := counter + 1, serverPort := sp, serverAddress := sa,
          listening := false, packets := [], connected := false,
          ackNumber := 0, seqNumber := 0, socketId := some sockId } atts).1.connected
        = false := finalizeApply_connected _ _
    have hsock : (tcp.finalize_packet
        { seqNumber := 0, ackNumber := 0, flags := tcp.syn_flags, payload := [] }
        { localPort := counter + 1, serverPort := sp, serverAddress := sa,
          listening := false, packets := [], connected := false,
          ackNumber := 0, seqNumber := 0, socketId := some sockId } atts).1.socketId
        = some sockId := finalizeApply_socketId _ _
    have hconns : (tcp.connect conns counter sockId sp sa true atts p2).conns =
        conns ++ [(tcp.finalize_packet
          { seqNumber := 0, ackNumber := 0, flags := tcp.syn_flags, payload := [] }
          { localPort := counter + 1, serverPort := sp, serverAddress := sa,
            listening := false, packets := [], connected := false,
            ackNumber := 0, seqNumber := 0, socketId := some sockId } atts).1] :=
      herr.1
    have hdata : (tcp.connect conns counter sockId sp sa true atts p2).sockConnectionData =
        some conns.length := herr.2
    refine ⟨by rw [hconns]; simp, hdata, ?_⟩
    rw [hconns]
    exact ⟨_, (disconnect_not_connected conns _ denv hconn).1, hsock, hconn,
      (disconnect_not_connected conns _ denv hconn).2⟩

/-- Witness for C9: a connect on the empty table whose SYN preparation
fails leaves one unconnected linked connection in the table, and a
disconnect attempt on it fails with NOT_CONNECTED without removing
it. -/
theorem tcp_connect_error_keeps_connection_witness :
    (tcp.connect [] 1023 7 80 5 false [] true).conns.length = 0 + 1 ∧
    (tcp.connect [] 1023 7 80 5 false [] true).sockConnectionData = some 0 ∧
    ∃ c : tcp.tcp_connection,
      (tcp.connect [] 1023 7 80 5 false [] true).conns[(0 : Nat)]? = some c ∧
      c.socketId = some 7 ∧ c.connected = false ∧
      tcp.disconnect (tcp.connect [] 1023 7 80 5 false [] true).conns 0
          { prepOk := true, attempts := [], finWaitDelivered := [],
            prep2Ok := true } =
        ((tcp.connect [] 1023 7 80 5 false [] true).conns,
         .error .notConnected) :=
  tcp_connect_error_keeps_connection [] 1023 7 80 5 false [] true .lowerLayer
    { prepOk := true, attempts := [], finWaitDelivered := [], prep2Ok := true }
    (by decide)

end ThorOS
